import Mathlib

/-!
Shallow embedding of `src/backend.py`, a Flask proxy that forwards CRUD
requests for a "users" resource to the Backendless REST API.

Modelling conventions:
* JSON values are the inductive type `Json`; Python dicts are association
  lists looked up with `dictGet` (a repeated key keeps its last value, as
  `json.loads` does).
* An upstream HTTP response is `UpstreamResponse`: its integer status code,
  its raw text, and `json? = some v` exactly when `response.json()` parses
  (`none` models `requests.exceptions.JSONDecodeError`).
* Each Flask route is a function of its inputs and of the outcome of its one
  outbound `requests` call, given as `Except String UpstreamResponse`
  (`Except.error e` models a raised `requests.exceptions.RequestException`
  with message `e`, caught by the route's `except` clause).
* A route returns `Option LocalResponse × List UpstreamCall`: the local
  response (`none` models an uncaught Python exception, e.g. the
  `AttributeError` from calling `.get` on a non-dict, which Flask turns into
  a generic 500) and the list of outbound upstream calls it issued.
* `response.ok` in `requests` holds iff `raise_for_status()` does not raise,
  i.e. iff the status code is outside 400..599.
* Python truthiness on parsed JSON values is `Json.truthy`.
-/

/-- JSON values, modelling Python's parse of a JSON document
(objects as association lists in document order). -/
inductive Json where
  | null : Json
  | bool (b : Bool) : Json
  | num (n : Int) : Json
  | str (s : String) : Json
  | arr (elems : List Json) : Json
  | obj (fields : List (String × Json)) : Json
deriving Repr

mutual

/-- Boolean equality of JSON values. -/
def Json.beq : Json → Json → Bool
  | .null, .null => true
  | .bool a, .bool b => a == b
  | .num a, .num b => a == b
  | .str a, .str b => a == b
  | .arr as, .arr bs => Json.beqList as bs
  | .obj as, .obj bs => Json.beqFields as bs
  | _, _ => false

/-- Boolean equality of JSON arrays, elementwise. -/
def Json.beqList : List Json → List Json → Bool
  | [], [] => true
  | a :: as, b :: bs => Json.beq a b && Json.beqList as bs
  | _, _ => false

/-- Boolean equality of JSON object field lists, pairwise. -/
def Json.beqFields : List (String × Json) → List (String × Json) → Bool
  | [], [] => true
  | (k, a) :: as, (l, b) :: bs => k == l && Json.beq a b && Json.beqFields as bs
  | _, _ => false

end

mutual

/-- `Json.beq` is sound for equality. -/
def Json.eq_of_beq : ∀ {a b : Json}, Json.beq a b = true → a = b
  | .null, .null, _ => rfl
  | .bool a, .bool b, h => by simpa [Json.beq] using h
  | .num a, .num b, h => by simpa [Json.beq] using h
  | .str a, .str b, h => by simpa [Json.beq] using h
  | .arr as, .arr bs, h => by
      rw [Json.eqList_of_beq (a := as) (b := bs) (by simpa [Json.beq] using h)]
  | .obj as, .obj bs, h => by
      rw [Json.eqFields_of_beq (a := as) (b := bs) (by simpa [Json.beq] using h)]

/-- `Json.beqList` is sound for equality. -/
def Json.eqList_of_beq : ∀ {a b : List Json}, Json.beqList a b = true → a = b
  | [], [], _ => rfl
  | a :: as, b :: bs, h => by
      have h1 : Json.beq a b = true ∧ Json.beqList as bs = true := by
        simpa [Json.beqList, Bool.and_eq_true] using h
      rw [Json.eq_of_beq h1.1, Json.eqList_of_beq h1.2]

/-- `Json.beqFields` is sound for equality. -/
def Json.eqFields_of_beq :
    ∀ {a b : List (String × Json)}, Json.beqFields a b = true → a = b
  | [], [], _ => rfl
  | (k, a) :: as, (l, b) :: bs, h => by
      have h1 : k = l ∧ Json.beq a b = true ∧ Json.beqFields as bs = true := by
        simpa [Json.beqFields, Bool.and_eq_true, and_assoc] using h
      rw [h1.1, Json.eq_of_beq h1.2.1, Json.eqFields_of_beq h1.2.2]

end

mutual

/-- `Json.beq` is reflexive. -/
def Json.beq_refl : ∀ (a : Json), Json.beq a a = true
  | .null => rfl
  | .bool a => by simp [Json.beq]
  | .num a => by simp [Json.beq]
  | .str a => by simp [Json.beq]
  | .arr as => by simpa [Json.beq] using Json.beqList_refl as
  | .obj as => by simpa [Json.beq] using Json.beqFields_refl as

/-- `Json.beqList` is reflexive. -/
def Json.beqList_refl : ∀ (a : List Json), Json.beqList a a = true
  | [] => rfl
  | a :: as => by
      simp [Json.beqList, Json.beq_refl a, Json.beqList_refl as]

/-- `Json.beqFields` is reflexive. -/
def Json.beqFields_refl : ∀ (a : List (String × Json)), Json.beqFields a a = true
  | [] => rfl
  | (k, a) :: as => by
      simp [Json.beqFields, Json.beq_refl a, Json.beqFields_refl as]

end

instance : DecidableEq Json := fun a b =>
  if h : Json.beq a b = true then isTrue (Json.eq_of_beq h)
  else isFalse (fun he => h (he ▸ Json.beq_refl a))

/-- Python truthiness of a parsed JSON value (`None`, `False`, `0`, `""`,
`[]`, `{}` are falsy). -/
def Json.truthy : Json → Bool
  | .null => false
  | .bool b => b
  | .num n => n != 0
  | .str s => s ≠ ""
  | .arr elems => !elems.isEmpty
  | .obj fields => !fields.isEmpty

/-- Python `not x` applied to the result of `dict.get(key)`:
true when the key is absent (`None`) or its value is falsy. -/
def pyFalsy : Option Json → Bool
  | none => true
  | some v => !v.truthy

/-- Key lookup in a parsed JSON object.  `json.loads` builds a Python dict
in which a repeated key keeps its last value, so later bindings win. -/
def dictGet : List (String × Json) → String → Option Json
  | [], _ => none
  | (k, v) :: rest, key =>
      match dictGet rest key with
      | some w => some w
      | none => if k = key then some v else none

/-- The result of the single outbound `requests` call a route makes:
status code, raw body text, and the parsed JSON body when
`response.json()` succeeds (`none` models `JSONDecodeError`). -/
structure UpstreamResponse where
  status : Nat
  text : String
  json? : Option Json
deriving Repr, DecidableEq

/-- `requests.Response.ok`: `raise_for_status()` raises exactly for
status codes 400..599, so `ok` holds outside that range. -/
def UpstreamResponse.ok (r : UpstreamResponse) : Bool :=
  !(400 ≤ r.status && r.status < 600)

/-- A local response the proxy sends: JSON body and status code. -/
abbrev LocalResponse := Json × Nat

/-- An outbound HTTP call issued by a route. -/
inductive UpstreamCall where
  | get (url : String) : UpstreamCall
  | post (url : String) (body : Json) : UpstreamCall
  | put (url : String) (body : Json) : UpstreamCall
  | delete (url : String) : UpstreamCall
deriving Repr, DecidableEq

/-- `BACKENDLESS_API_URL` from the source. -/
def BACKENDLESS_API_URL : String :=
  "https://strongquestion-us.backendless.app/api/data/users1"

/-- The per-record URL `f"{BACKENDLESS_API_URL}/{object_id}"`. -/
def userUrl (object_id : String) : String :=
  BACKENDLESS_API_URL ++ "/" ++ object_id

/-- The 503 body `{"error": "Failed to connect to Backendless API",
"details": str(e)}` returned by every route's `except` clause. -/
def connectionFailure (e : String) : LocalResponse :=
  (Json.obj [("error", Json.str "Failed to connect to Backendless API"),
             ("details", Json.str e)], 503)

/-- `backendless_response`: standardizes the upstream response.
If the body is not JSON, answer `{"message": text or "Operation successful"}`
with the upstream status; if `response.ok`, pass the parsed body through with
the upstream status; otherwise wrap it as `{"error": message-or-default,
"details": body}`.  `data.get("message", ...)` on a non-dict raises
`AttributeError` (modelled by `none`). -/
def backendless_response (response : UpstreamResponse) :
    Option LocalResponse :=
  match response.json? with
  | none =>
      some (Json.obj [("message",
              Json.str (if response.text = "" then "Operation successful"
                        else response.text))],
            response.status)
  | some data =>
      if response.ok then
        some (data, response.status)
      else
        match data with
        | .obj fields =>
            some (Json.obj
                    [("error", (dictGet fields "message").getD
                        (Json.str "An unexpected Backendless error occurred.")),
                     ("details", Json.obj fields)],
                  response.status)
        | _ => none

/-- The shared `try`-block tail of every route: hand the upstream outcome to
`backendless_response`, or answer 503 on a `RequestException`. -/
def handleUpstream (upstream : Except String UpstreamResponse) :
    Option LocalResponse :=
  match upstream with
  | .error e => some (connectionFailure e)
  | .ok response => backendless_response response

/-- `GET /users`: forward one GET of the collection. -/
def get_all_users (upstream : Except String UpstreamResponse) :
    Option LocalResponse × List UpstreamCall :=
  (handleUpstream upstream, [UpstreamCall.get BACKENDLESS_API_URL])

/-- `POST /users`.  `body? = none` models `not request.is_json`; otherwise
`body?` is the parsed JSON body.  `data.get` on a non-dict body raises
`AttributeError` (modelled by `none`, no upstream call). -/
def create_user (body? : Option Json)
    (upstream : Except String UpstreamResponse) :
    Option LocalResponse × List UpstreamCall :=
  match body? with
  | none =>
      (some (Json.obj [("error", Json.str "Missing JSON in request")], 400), [])
  | some data =>
      match data with
      | .obj fields =>
          let nombre := dictGet fields "nombre"
          let email := dictGet fields "email"
          if pyFalsy nombre || pyFalsy email then
            (some (Json.obj [("error", Json.str
                "Missing required fields: 'nombre' and 'email'")], 400), [])
          else
            let payload := Json.obj [("nombre", nombre.getD Json.null),
                                     ("email", email.getD Json.null)]
            (handleUpstream upstream,
             [UpstreamCall.post BACKENDLESS_API_URL payload])
      | _ => (none, [])

/-- `GET /users/<object_id>`: forward one GET of the record URL. -/
def get_user (object_id : String)
    (upstream : Except String UpstreamResponse) :
    Option LocalResponse × List UpstreamCall :=
  (handleUpstream upstream, [UpstreamCall.get (userUrl object_id)])

/-- Whether the characters `needle` occur contiguously in `hay`
(Python `needle in hay` on strings). -/
def charsContain (hay needle : List Char) : Bool :=
  needle.isPrefixOf hay ||
    match hay with
    | [] => false
    | _ :: t => charsContain t needle

/-- The `payload` dict `update_user` builds from a dict body: the
`nombre` and `email` bindings that are present, in that order. -/
def updatePayload (fields : List (String × Json)) : List (String × Json) :=
  (match dictGet fields "nombre" with
   | some v => [("nombre", v)]
   | none => []) ++
  (match dictGet fields "email" with
   | some v => [("email", v)]
   | none => [])

/-- `PUT /users/<object_id>`.  On a dict body, forward the present
`nombre`/`email` bindings, 400 when neither is present.  On other JSON
bodies Python's `in` and indexing decide: `"nombre" in data` is substring
search on a string and element search on a list — a hit then crashes at
`data["nombre"]` (`TypeError`, modelled by `none`) — and raises `TypeError`
outright on `None`, booleans and numbers. -/
def update_user (object_id : String) (body? : Option Json)
    (upstream : Except String UpstreamResponse) :
    Option LocalResponse × List UpstreamCall :=
  match body? with
  | none =>
      (some (Json.obj [("error", Json.str "Missing JSON in request")], 400), [])
  | some data =>
      match data with
      | .obj fields =>
          let payload := updatePayload fields
          if payload.isEmpty then
            (some (Json.obj [("error", Json.str
                "No valid fields provided for update ('nombre' or 'email')")],
              400), [])
          else
            (handleUpstream upstream,
             [UpstreamCall.put (userUrl object_id) (Json.obj payload)])
      | .str s =>
          if charsContain s.data "nombre".data ||
             charsContain s.data "email".data then
            (none, [])
          else
            (some (Json.obj [("error", Json.str
                "No valid fields provided for update ('nombre' or 'email')")],
              400), [])
      | .arr elems =>
          if elems.contains (Json.str "nombre") ||
             elems.contains (Json.str "email") then
            (none, [])
          else
            (some (Json.obj [("error", Json.str
                "No valid fields provided for update ('nombre' or 'email')")],
              400), [])
      | _ => (none, [])

/-- `DELETE /users/<object_id>`: upstream status 200 or 204 answers a fixed
success message with local status 200; anything else goes through
`backendless_response`. -/
def delete_user (object_id : String)
    (upstream : Except String UpstreamResponse) :
    Option LocalResponse × List UpstreamCall :=
  (match upstream with
   | .error e => some (connectionFailure e)
   | .ok response =>
       if response.status = 200 ∨ response.status = 204 then
         some (Json.obj [("message",
                 Json.str ("User " ++ object_id ++ " successfully deleted"))],
               200)
       else
         backendless_response response,
   [UpstreamCall.delete (userUrl object_id)])

/-! Shared facts about `backendless_response`, proved once and reused by the
claims below. -/

/-- The `{"error": ..., "details": ...}` wrapper `backendless_response`
builds for a failing upstream status from a parsed JSON object body. -/
def wrapError (fields : List (String × Json)) (status : Nat) : LocalResponse :=
  (Json.obj [("error", (dictGet fields "message").getD
               (Json.str "An unexpected Backendless error occurred.")),
             ("details", Json.obj fields)], status)

/-- The specification's example request body
`{"nombre": "Ana", "email": "ana@x.com"}`, valid for create and update. -/
def anaBody : Json :=
  Json.obj [("nombre", Json.str "Ana"), ("email", Json.str "ana@x.com")]

theorem ok_of_lt (r : UpstreamResponse) (h : r.status < 400) : r.ok = true := by
  simp only [UpstreamResponse.ok, Bool.not_eq_true']
  simp only [Bool.and_eq_false_iff, decide_eq_false_iff_not, not_le]
  exact Or.inl h

theorem not_ok_of_err (r : UpstreamResponse) (h4 : 400 ≤ r.status)
    (h6 : r.status < 600) : r.ok = false := by
  simp only [UpstreamResponse.ok, Bool.not_eq_false', Bool.and_eq_true,
    decide_eq_true_eq]
  exact ⟨h4, h6⟩

/-- A parsed body passes through unchanged when the status is `ok`. -/
theorem backendless_response_of_ok (r : UpstreamResponse) (d : Json)
    (hj : r.json? = some d) (h : r.status < 400) :
    backendless_response r = some (d, r.status) := by
  unfold backendless_response
  rw [hj, ok_of_lt r h]
  rfl

/-- A parsed object body is wrapped as `{"error", "details"}` when the
status is failing. -/
theorem backendless_response_of_err (r : UpstreamResponse)
    (fields : List (String × Json)) (hj : r.json? = some (Json.obj fields))
    (h4 : 400 ≤ r.status) (h6 : r.status < 600) :
    backendless_response r = some (wrapError fields r.status) := by
  unfold backendless_response
  rw [hj, not_ok_of_err r h4 h6]
  rfl

/-- A body that does not parse becomes a `{"message": ...}` response. -/
theorem backendless_response_of_text (r : UpstreamResponse)
    (hj : r.json? = none) :
    backendless_response r =
      some (Json.obj [("message",
              Json.str (if r.text = "" then "Operation successful"
                        else r.text))], r.status) := by
  unfold backendless_response
  rw [hj]

/-- `delete_user` falls through to `backendless_response` for statuses
other than 200 and 204. -/
theorem delete_user_fallthrough (oid : String) (r : UpstreamResponse)
    (h200 : r.status ≠ 200) (h204 : r.status ≠ 204) :
    (delete_user oid (Except.ok r)).1 = backendless_response r := by
  simp only [delete_user]
  exact if_neg (by simp [h200, h204])

/-! The claims. -/

/-- C1 (as stated, refuted): the claim reads every non-2xx upstream response
with a JSON body as wrapped into `{error, details}`.  But `requests` counts
only 400..599 as failures: a 304 response with the JSON body
`{"message": "ok"}` is passed through unchanged by `backendless_response`,
and the passed-through body is not the `{error, details}` wrapper the claim
requires. -/
theorem C1_counterexample :
    backendless_response
        ⟨304, "\x7b\"message\": \"ok\"\x7d", some (Json.obj [("message", Json.str "ok")])⟩
      = some (Json.obj [("message", Json.str "ok")], 304) ∧
    (Json.obj [("message", Json.str "ok")] : Json)
      ≠ Json.obj [("error", Json.str "ok"),
                  ("details", Json.obj [("message", Json.str "ok")])] := by
  exact ⟨rfl, by decide⟩

/-- C1 (amended): for every upstream response whose body parses as a JSON
object and whose status code lies in 400..599 (the range `requests` treats
as failure), response normalization returns `{error: m, details: d}` with
the upstream's status code, where `d` is the full parsed body and `m` is
its `message` field when present (otherwise a default string); and every
operation that reaches normalization answers exactly this result. -/
theorem C1_error_wrapping (r : UpstreamResponse)
    (fields : List (String × Json)) (oid : String)
    (hj : r.json? = some (Json.obj fields))
    (h4 : 400 ≤ r.status) (h6 : r.status < 600) :
    backendless_response r = some (wrapError fields r.status) ∧
    (get_all_users (Except.ok r)).1 = some (wrapError fields r.status) ∧
    (get_user oid (Except.ok r)).1 = some (wrapError fields r.status) ∧
    (create_user (some anaBody) (Except.ok r)).1
      = some (wrapError fields r.status) ∧
    (update_user oid (some anaBody) (Except.ok r)).1
      = some (wrapError fields r.status) ∧
    (delete_user oid (Except.ok r)).1 = some (wrapError fields r.status) := by
  have hb := backendless_response_of_err r fields hj h4 h6
  have hd : (delete_user oid (Except.ok r)).1 = backendless_response r :=
    delete_user_fallthrough oid r (by omega) (by omega)
  exact ⟨hb, hb, hb, hb, hb, hd.trans hb⟩

/-- C1 witness: a concrete 404 response with body `{"message": "nf"}` is
wrapped by `backendless_response` as the amended claim states. -/
theorem C1_error_wrapping_witness :
    backendless_response
        ⟨404, "\x7b\"message\": \"nf\"\x7d", some (Json.obj [("message", Json.str "nf")])⟩
      = some (wrapError [("message", Json.str "nf")] 404) :=
  (C1_error_wrapping
    ⟨404, "\x7b\"message\": \"nf\"\x7d", some (Json.obj [("message", Json.str "nf")])⟩
    [("message", Json.str "nf")] "zzz" rfl (by decide) (by decide)).1

/-- C2: every upstream response whose body parses as JSON and whose status
is 2xx is passed through unchanged, with the upstream's exact status code,
by `backendless_response` and by every operation that reaches it (delete
reaches it on a 2xx status other than 200 and 204). -/
theorem C2_success_passthrough (r : UpstreamResponse) (d : Json)
    (oid : String) (hj : r.json? = some d)
    (h2 : 200 ≤ r.status) (h3 : r.status < 300) :
    backendless_response r = some (d, r.status) ∧
    (get_all_users (Except.ok r)).1 = some (d, r.status) ∧
    (get_user oid (Except.ok r)).1 = some (d, r.status) ∧
    (create_user (some anaBody) (Except.ok r)).1 = some (d, r.status) ∧
    (update_user oid (some anaBody) (Except.ok r)).1 = some (d, r.status) ∧
    (r.status ≠ 200 → r.status ≠ 204 →
      (delete_user oid (Except.ok r)).1 = some (d, r.status)) := by
  have hb := backendless_response_of_ok r d hj (by omega)
  exact ⟨hb, hb, hb, hb, hb,
    fun h200 h204 => (delete_user_fallthrough oid r h200 h204).trans hb⟩

/-- C2 witness: the specification's example — upstream 200 with body
`{"objectId": "abc123", "nombre": "Ana", "email": "ana@x.com"}` is answered
as local 200 with the identical body. -/
theorem C2_success_passthrough_witness :
    backendless_response
        ⟨200,
         "\x7b\"objectId\":\"abc123\",\"nombre\":\"Ana\",\"email\":\"ana@x.com\"\x7d",
         some (Json.obj [("objectId", Json.str "abc123"),
                         ("nombre", Json.str "Ana"),
                         ("email", Json.str "ana@x.com")])⟩
      = some (Json.obj [("objectId", Json.str "abc123"),
                        ("nombre", Json.str "Ana"),
                        ("email", Json.str "ana@x.com")], 200) :=
  (C2_success_passthrough
    ⟨200,
     "\x7b\"objectId\":\"abc123\",\"nombre\":\"Ana\",\"email\":\"ana@x.com\"\x7d",
     some (Json.obj [("objectId", Json.str "abc123"),
                     ("nombre", Json.str "Ana"),
                     ("email", Json.str "ana@x.com")])⟩
    (Json.obj [("objectId", Json.str "abc123"),
               ("nombre", Json.str "Ana"),
               ("email", Json.str "ana@x.com")])
    "abc123" rfl (by decide) (by decide)).1

/-- C3: whenever the upstream DELETE call answers status 200 or 204, the
proxy answers local status 200 with body
`{"message": "User <id> successfully deleted"}`, whatever the upstream
response body was. -/
theorem C3_delete_success (oid : String) (r : UpstreamResponse)
    (h : r.status = 200 ∨ r.status = 204) :
    delete_user oid (Except.ok r) =
      (some (Json.obj [("message",
          Json.str ("User " ++ oid ++ " successfully deleted"))], 200),
       [UpstreamCall.delete (userUrl oid)]) := by
  simp only [delete_user]
  rw [if_pos h]

/-- C3 witness: deleting `abc123` with the upstream answering an empty 204
yields local 200 and the fixed success message. -/
theorem C3_delete_success_witness :
    delete_user "abc123" (Except.ok ⟨204, "", none⟩) =
      (some (Json.obj [("message",
          Json.str "User abc123 successfully deleted")], 200),
       [UpstreamCall.delete (userUrl "abc123")]) :=
  C3_delete_success "abc123" ⟨204, "", none⟩ (Or.inr rfl)

/-- C4 (as stated, refuted): the claim promises a 400 for every JSON create
body missing `nombre` or `email`, but a JSON body that is not an object —
here the empty array, which certainly has no `nombre` — makes
`data.get("nombre")` raise `AttributeError`, an uncaught exception (no
local response, modelled as `none`) rather than a 400; no upstream call is
issued either way. -/
theorem C4_counterexample :
    create_user (some (Json.arr [])) (Except.error "down") = (none, []) ∧
    (create_user (some (Json.arr [])) (Except.error "down")).1
      ≠ some (Json.obj [("error",
          Json.str "Missing required fields: 'nombre' and 'email'")], 400) :=
  ⟨rfl, by decide⟩

/-- C4 (amended): for every create request whose JSON body is an object
missing `nombre` or missing `email` (or having either equal to the empty
string), the proxy answers status 400 with the fixed error body and issues
no upstream HTTP call. -/
theorem C4_create_validation (fields : List (String × Json))
    (u : Except String UpstreamResponse)
    (h : (dictGet fields "nombre" = none ∨
          dictGet fields "nombre" = some (Json.str "")) ∨
         (dictGet fields "email" = none ∨
          dictGet fields "email" = some (Json.str ""))) :
    create_user (some (Json.obj fields)) u =
      (some (Json.obj [("error",
          Json.str "Missing required fields: 'nombre' and 'email'")], 400),
       []) := by
  have hcond : (pyFalsy (dictGet fields "nombre")
      || pyFalsy (dictGet fields "email")) = true := by
    rcases h with h | h <;> rcases h with h | h <;>
      simp [h, pyFalsy, Json.truthy]
  simp [create_user, hcond]

/-- C4 witness: a create body carrying only `email` is answered 400 with no
upstream call. -/
theorem C4_create_validation_witness :
    create_user (some (Json.obj [("email", Json.str "ana@x.com")]))
        (Except.error "down") =
      (some (Json.obj [("error",
          Json.str "Missing required fields: 'nombre' and 'email'")], 400),
       []) :=
  C4_create_validation [("email", Json.str "ana@x.com")] (Except.error "down")
    (Or.inl (Or.inl rfl))

/-- C5 (as stated, refuted): the claim promises a 400 for every update body
containing neither `nombre` nor `email`, but on the JSON body `5` — which
contains neither key — Python's `'nombre' in data` raises `TypeError`, an
uncaught exception (no local response, modelled as `none`) rather than a
400. -/
theorem C5_counterexample :
    update_user "abc" (some (Json.num 5)) (Except.error "down") = (none, []) ∧
    (update_user "abc" (some (Json.num 5)) (Except.error "down")).1
      ≠ some (Json.obj [("error", Json.str
          "No valid fields provided for update ('nombre' or 'email')")], 400) :=
  ⟨rfl, by decide⟩

/-- C5 (amended): for every update request whose JSON body is an object
containing neither the key `nombre` nor the key `email`, the proxy answers
status 400 with the fixed error body and issues no upstream HTTP call. -/
theorem C5_update_validation (oid : String) (fields : List (String × Json))
    (u : Except String UpstreamResponse)
    (hn : dictGet fields "nombre" = none)
    (he : dictGet fields "email" = none) :
    update_user oid (some (Json.obj fields)) u =
      (some (Json.obj [("error", Json.str
          "No valid fields provided for update ('nombre' or 'email')")], 400),
       []) := by
  simp [update_user, updatePayload, hn, he]

/-- C5 witness: an update body carrying only `edad` is answered 400 with no
upstream call. -/
theorem C5_update_validation_witness :
    update_user "abc" (some (Json.obj [("edad", Json.num 30)]))
        (Except.error "down") =
      (some (Json.obj [("error", Json.str
          "No valid fields provided for update ('nombre' or 'email')")], 400),
       []) :=
  C5_update_validation "abc" [("edad", Json.num 30)] (Except.error "down")
    rfl rfl

/-- C6: when the outbound call raises a `RequestException`, each of the five
operations answers local 503 with `error` equal to
`"Failed to connect to Backendless API"` and `details` carrying the
underlying error message; the single recorded upstream attempt shows the
call is not retried. -/
theorem C6_connectivity_503 (e oid n em : String)
    (hn : n ≠ "") (he : em ≠ "") :
    get_all_users (Except.error e)
      = (some (connectionFailure e), [UpstreamCall.get BACKENDLESS_API_URL]) ∧
    get_user oid (Except.error e)
      = (some (connectionFailure e), [UpstreamCall.get (userUrl oid)]) ∧
    create_user (some (Json.obj [("nombre", Json.str n),
                                 ("email", Json.str em)]))
        (Except.error e)
      = (some (connectionFailure e),
         [UpstreamCall.post BACKENDLESS_API_URL
           (Json.obj [("nombre", Json.str n), ("email", Json.str em)])]) ∧
    update_user oid (some (Json.obj [("nombre", Json.str n)]))
        (Except.error e)
      = (some (connectionFailure e),
         [UpstreamCall.put (userUrl oid) (Json.obj [("nombre", Json.str n)])]) ∧
    delete_user oid (Except.error e)
      = (some (connectionFailure e), [UpstreamCall.delete (userUrl oid)]) := by
  refine ⟨rfl, rfl, ?_, rfl, rfl⟩
  simp [create_user, pyFalsy, Json.truthy, dictGet, hn, he, handleUpstream]

/-- C6 witness: a concrete connection failure on the list route is answered
as the claim states. -/
theorem C6_connectivity_503_witness :
    get_all_users (Except.error "Connection refused")
      = (some (connectionFailure "Connection refused"),
         [UpstreamCall.get BACKENDLESS_API_URL]) :=
  (C6_connectivity_503 "Connection refused" "abc123" "Ana" "ana@x.com"
    (by decide) (by decide)).1

/-- C7 (as stated, refuted): a GET by id answered 404 upstream with the JSON
error body `{"code": 1000, "message": "Entity not found"}` is answered
locally with status 404 but with the body wrapped as `{error, details}` by
`backendless_response` — not with the upstream's error body unchanged. -/
theorem C7_counterexample :
    (get_user "zzz"
        (Except.ok ⟨404, "\x7b\"code\":1000,\"message\":\"Entity not found\"\x7d",
          some (Json.obj [("code", Json.num 1000),
                          ("message", Json.str "Entity not found")])⟩)).1
      = some (Json.obj [("error", Json.str "Entity not found"),
                        ("details", Json.obj [("code", Json.num 1000),
                          ("message", Json.str "Entity not found")])], 404) ∧
    (Json.obj [("error", Json.str "Entity not found"),
               ("details", Json.obj [("code", Json.num 1000),
                 ("message", Json.str "Entity not found")])] : Json)
      ≠ Json.obj [("code", Json.num 1000),
                  ("message", Json.str "Entity not found")] :=
  ⟨rfl, by decide⟩

/-- C7 (amended): for every get-by-id request whose upstream returns 404
with a JSON object body, the proxy answers status 404 with the body
`{error: m, details: d}`, where `d` is the upstream's full error body and
`m` its `message` field when present (otherwise a default string). -/
theorem C7_get_404_wrapped (oid : String) (r : UpstreamResponse)
    (fields : List (String × Json))
    (hj : r.json? = some (Json.obj fields)) (hs : r.status = 404) :
    get_user oid (Except.ok r) =
      (some (wrapError fields 404), [UpstreamCall.get (userUrl oid)]) := by
  have hb := backendless_response_of_err r fields hj (by omega) (by omega)
  rw [hs] at hb
  show (backendless_response r, [UpstreamCall.get (userUrl oid)]) = _
  rw [hb]

/-- C7 witness: a concrete upstream 404 with a `message` field is wrapped
as the amended claim states. -/
theorem C7_get_404_wrapped_witness :
    get_user "zzz"
        (Except.ok ⟨404, "\x7b\"message\":\"Object not found\"\x7d",
          some (Json.obj [("message", Json.str "Object not found")])⟩) =
      (some (wrapError [("message", Json.str "Object not found")] 404),
       [UpstreamCall.get (userUrl "zzz")]) :=
  C7_get_404_wrapped "zzz"
    ⟨404, "\x7b\"message\":\"Object not found\"\x7d",
      some (Json.obj [("message", Json.str "Object not found")])⟩
    [("message", Json.str "Object not found")] rfl rfl

/-- C8: for every upstream response whose body does not parse as JSON,
`backendless_response` answers `{message: <raw text>}` — or
`{message: "Operation successful"}` when the raw text is empty — with the
upstream's status code, and every operation that reaches normalization
passes this result through (delete reaches it for statuses other than 200
and 204). -/
theorem C8_non_json_body (r : UpstreamResponse) (oid : String)
    (hj : r.json? = none) :
    backendless_response r =
      some (Json.obj [("message",
          Json.str (if r.text = "" then "Operation successful" else r.text))],
        r.status) ∧
    (get_all_users (Except.ok r)).1 = backendless_response r ∧
    (get_user oid (Except.ok r)).1 = backendless_response r ∧
    (create_user (some anaBody) (Except.ok r)).1 = backendless_response r ∧
    (update_user oid (some anaBody) (Except.ok r)).1 = backendless_response r ∧
    (r.status ≠ 200 → r.status ≠ 204 →
      (delete_user oid (Except.ok r)).1 = backendless_response r) :=
  ⟨backendless_response_of_text r hj, rfl, rfl, rfl, rfl,
    fun h200 h204 => delete_user_fallthrough oid r h200 h204⟩

/-- C8 witness: a concrete 502 with the non-JSON body `Bad Gateway` becomes
`{"message": "Bad Gateway"}` with status 502. -/
theorem C8_non_json_body_witness :
    backendless_response ⟨502, "Bad Gateway", none⟩ =
      some (Json.obj [("message", Json.str "Bad Gateway")], 502) :=
  (C8_non_json_body ⟨502, "Bad Gateway", none⟩ "abc" rfl).1

/-- C9: for every valid create request — a JSON object body whose `nombre`
and `email` are present and truthy — the single upstream POST carries
exactly `{nombre, email}` taken from the request; any other fields of the
request body are not forwarded. -/
theorem C9_create_payload (fields : List (String × Json))
    (u : Except String UpstreamResponse) (vn ve : Json)
    (hn : dictGet fields "nombre" = some vn)
    (he : dictGet fields "email" = some ve)
    (htn : vn.truthy = true) (hte : ve.truthy = true) :
    (create_user (some (Json.obj fields)) u).2 =
      [UpstreamCall.post BACKENDLESS_API_URL
        (Json.obj [("nombre", vn), ("email", ve)])] := by
  simp [create_user, hn, he, pyFalsy, htn, hte]

/-- C9 witness: a create body with an extra `admin` field forwards only
`nombre` and `email` in one POST. -/
theorem C9_create_payload_witness :
    (create_user (some (Json.obj [("nombre", Json.str "Ana"),
                                  ("email", Json.str "ana@x.com"),
                                  ("admin", Json.bool true)]))
        (Except.error "down")).2 =
      [UpstreamCall.post BACKENDLESS_API_URL
        (Json.obj [("nombre", Json.str "Ana"),
                   ("email", Json.str "ana@x.com")])] :=
  C9_create_payload
    [("nombre", Json.str "Ana"), ("email", Json.str "ana@x.com"),
     ("admin", Json.bool true)]
    (Except.error "down") (Json.str "Ana") (Json.str "ana@x.com")
    rfl rfl (by decide) (by decide)

/-- C10: update validation checks key presence only — a JSON object body
containing `nombre` (or `email`) with any value, the empty string and
`null` included, passes validation, and the single upstream PUT forwards
that binding; by contrast, create answers 400 to an empty `nombre` without
calling upstream. -/
theorem C10_update_presence_not_value (oid : String)
    (fields : List (String × Json)) (v : Json)
    (u : Except String UpstreamResponse)
    (h : dictGet fields "nombre" = some v ∨ dictGet fields "email" = some v) :
    ((update_user oid (some (Json.obj fields)) u).1 = handleUpstream u ∧
     (update_user oid (some (Json.obj fields)) u).2 =
       [UpstreamCall.put (userUrl oid) (Json.obj (updatePayload fields))] ∧
     (("nombre", v) ∈ updatePayload fields ∨
      ("email", v) ∈ updatePayload fields)) ∧
    create_user (some (Json.obj [("nombre", Json.str ""),
                                 ("email", Json.str "ana@x.com")])) u =
      (some (Json.obj [("error",
          Json.str "Missing required fields: 'nombre' and 'email'")], 400),
       []) := by
  have hne : (updatePayload fields).isEmpty = false := by
    rcases h with h | h
    · simp [updatePayload, h]
    · cases hn : dictGet fields "nombre" <;> simp [updatePayload, h, hn]
  have hmem : ("nombre", v) ∈ updatePayload fields ∨
      ("email", v) ∈ updatePayload fields := by
    rcases h with h | h
    · exact Or.inl (by simp [updatePayload, h])
    · exact Or.inr (by
        cases hn : dictGet fields "nombre" <;> simp [updatePayload, h, hn])
  refine ⟨⟨?_, ?_, hmem⟩, rfl⟩
  · simp [update_user, hne]
  · simp [update_user, hne]

/-- C10 witness: an update body whose `nombre` is the empty string is
forwarded upstream in one PUT, while the same empty `nombre` makes create
answer 400 with no upstream call. -/
theorem C10_update_presence_not_value_witness :
    ((update_user "abc" (some (Json.obj [("nombre", Json.str "")]))
        (Except.error "down")).1 = handleUpstream (Except.error "down") ∧
     (update_user "abc" (some (Json.obj [("nombre", Json.str "")]))
        (Except.error "down")).2 =
       [UpstreamCall.put (userUrl "abc")
         (Json.obj (updatePayload [("nombre", Json.str "")]))] ∧
     (("nombre", Json.str "") ∈ updatePayload [("nombre", Json.str "")] ∨
      ("email", Json.str "") ∈ updatePayload [("nombre", Json.str "")])) ∧
    create_user (some (Json.obj [("nombre", Json.str ""),
                                 ("email", Json.str "ana@x.com")]))
        (Except.error "down") =
      (some (Json.obj [("error",
          Json.str "Missing required fields: 'nombre' and 'email'")], 400),
       []) :=
  C10_update_presence_not_value "abc" [("nombre", Json.str "")]
    (Json.str "") (Except.error "down") (Or.inl rfl)
